import Mathlib

/-
Verification of the employee-directory client core: the filter/pagination
list controller, the update-diff form logic, the delete confirmation flow,
the query-string serialization of filters, the dropdown-option handling and
the shared API error formatter. Each definition is a shallow embedding of
the corresponding TypeScript function; JavaScript-specific value behavior
(undefined vs null, truthiness, strict inequality) is modelled explicitly.
-/

namespace EmployeeDirectory

/-- JavaScript string-or-null-or-undefined values, as they occur in the
`manager` and `customAvatar` fields (`string | null | undefined`).
Decidable equality models the strict `===` comparison on these values:
`null !== undefined`, and strings compare by content. -/
inductive JStr where
  | str (s : String)
  | null
  | undefined
deriving DecidableEq

/-- JavaScript truthiness restricted to string-or-null-or-undefined values:
a nonempty string is truthy, the empty string, null and undefined are falsy. -/
def JStr.truthy : JStr → Bool
  | .str s => s ≠ ""
  | .null => false
  | .undefined => false

/-- JavaScript `v || null` on a string-or-null-or-undefined value. -/
def jsOrNull (v : JStr) : JStr := if v.truthy then v else .null

/-- JavaScript `v || undefined` on a string-or-null-or-undefined value. -/
def jsOrUndefined (v : JStr) : JStr := if v.truthy then v else .undefined

/-- The Employee record of types/employee.ts. `manager?: string` is modelled
as a JStr (undefined when absent) and `customAvatar?: string | null`
likewise, so that the strict comparisons of the update diff are exact. -/
structure Employee where
  id : String
  firstName : String
  lastName : String
  email : String
  phone : String
  department : String
  title : String
  location : String
  avatar : String
  hireDate : String
  salary : Int
  manager : JStr
  isActive : Bool
  customAvatar : JStr
deriving DecidableEq

/-- The PaginatedEmployees response shape of types/employee.ts. -/
structure PaginatedEmployees where
  employees : List Employee
  total : Nat
  page : Nat
  limit : Nat
  totalPages : Nat
deriving DecidableEq

/-- The EmployeeFilters object of types/employee.ts: every field optional
(`none` models an undefined / absent key). -/
structure EmployeeFilters where
  department : Option String
  title : Option String
  location : Option String
  search : Option String
  page : Option Nat
  limit : Option Nat
deriving DecidableEq

/-- The non-page filter keys the filter UI passes to handleFilterChange
(department, job title, location dropdowns and the chip-clear buttons). -/
inductive FilterKey where
  | department
  | title
  | location
  | search
deriving DecidableEq

/-- Assignment of a single dynamic key, the `[key]: value` part of the
object spread in handleFilterChange. -/
def setFilterKey (f : EmployeeFilters) (k : FilterKey) (v : String) : EmployeeFilters :=
  match k with
  | .department => { f with department := some v }
  | .title => { f with title := some v }
  | .location => { f with location := some v }
  | .search => { f with search := some v }

/-- handleFilterChange of EmployeeFilters.tsx:
`onFiltersChange({ ...filters, [key]: value, page: 1 })`. -/
def handleFilterChange (f : EmployeeFilters) (k : FilterKey) (v : String) : EmployeeFilters :=
  { setFilterKey f k v with page := some 1 }

/-- handleSearchChange of EmployeeFilters.tsx:
`onFiltersChange({ ...filters, search: value, page: 1 })`. -/
def handleSearchChange (f : EmployeeFilters) (v : String) : EmployeeFilters :=
  { f with search := some v, page := some 1 }

/-- clearFilters of EmployeeFilters.tsx. -/
def clearFilters : EmployeeFilters :=
  { department := some "", title := some "", location := some "",
    search := some "", page := some 1, limit := some 10 }

/-- handlePageChange of EmployeeList:
`setFilters(prev => ({ ...prev, page }))`. -/
def handlePageChange (f : EmployeeFilters) (page : Nat) : EmployeeFilters :=
  { f with page := some page }

/-- Object.entries of an EmployeeFilters value, with numeric fields already
passed through `toString` as the query builder does; `none` stands for an
undefined (absent) field. -/
def filterEntries (f : EmployeeFilters) : List (String × Option String) :=
  [("department", f.department), ("title", f.title), ("location", f.location),
   ("search", f.search), ("page", f.page.map (fun n => toString n)),
   ("limit", f.limit.map (fun n => toString n))]

/-- The query-parameter list built by employeeApi.getAll: for each entry,
`if (value !== undefined && value !== '') params.append(key, value.toString())`. -/
def getAllParams (f : EmployeeFilters) : List (String × String) :=
  (filterEntries f).filterMap fun kv =>
    match kv.2 with
    | some v => if v ≠ "" then some (kv.1, v) else none
    | none => none

/-- The serialized query string `params.toString()` (percent-encoding aside),
joined as key=value pairs. -/
def getAllQueryString (f : EmployeeFilters) : String :=
  String.intercalate "&" ((getAllParams f).map fun kv => kv.1 ++ "=" ++ kv.2)

/-- Network requests the list controller can issue. -/
inductive ApiCall where
  | deleteEmployee (id : String)
  | getEmployees (f : EmployeeFilters)
deriving DecidableEq

/-- The React state of the EmployeeList component: the last paginated
result, the loading and error flags, the pending-delete id and the filters. -/
structure ListState where
  employees : PaginatedEmployees
  loading : Bool
  error : Option String
  deleteId : Option String
  filters : EmployeeFilters
deriving DecidableEq

/-- One complete loadEmployees cycle of EmployeeList, given the outcome of
the awaited employeeApi.getAll call: setLoading(true); setError(null);
on success setEmployees(data); on failure setError(message); finally
setLoading(false). The value is the state after the cycle completes. -/
def loadEmployees (s : ListState) (result : Except Unit PaginatedEmployees) : ListState :=
  match result with
  | .ok data => { s with employees := data, error := none, loading := false }
  | .error _ =>
      { s with error := some "Failed to load employees. Please try again.", loading := false }

/-- handleDeleteEmployee of EmployeeList: `setDeleteId(id)`. The second
component is the list of network calls the handler issues (none). -/
def handleDeleteEmployee (s : ListState) (id : String) : ListState × List ApiCall :=
  ({ s with deleteId := some id }, [])

/-- The onCancel handler of the ConfirmModal: `() => setDeleteId(null)`. -/
def cancelDelete (s : ListState) : ListState × List ApiCall :=
  ({ s with deleteId := none }, [])

/-- confirmDeleteEmployee of EmployeeList, given the outcome of the awaited
employeeApi.delete call: guard `if (!deleteId) return`; on success clear the
pending id and re-run loadEmployees with the current filters; on failure set
the error message and clear the pending id. The second component lists the
network calls issued, in order. -/
def confirmDeleteEmployee (s : ListState) (result : Except Unit Unit) : ListState × List ApiCall :=
  match s.deleteId with
  | none => (s, [])
  | some id =>
      match result with
      | .ok _ =>
          ({ s with deleteId := none },
           [ApiCall.deleteEmployee id, ApiCall.getEmployees s.filters])
      | .error _ =>
          ({ s with deleteId := none,
                    error := some "Failed to delete employee. Please try again." },
           [ApiCall.deleteEmployee id])

/-- Events of the fetch cycle: issuing a new list request (tagged by its
1-based sequence number) and a response for a given tag arriving. -/
inductive FetchEvent where
  | issue
  | respond (tag : Nat)
deriving DecidableEq

/-- Controller view of the out-of-order response hazard: how many list
requests have been issued, and the tag of the request whose response the
component currently renders. -/
structure CtrlState where
  issued : Nat
  rendered : Option Nat
deriving DecidableEq

/-- One event step of the fetch cycle as EmployeeList implements it: a new
fetch increments the sequence, and an arriving response is applied
unconditionally (`setEmployees(data)` in loadEmployees carries no tag or
sequence check), whatever its tag. -/
def ctrlStep (s : CtrlState) : FetchEvent → CtrlState
  | .issue => { s with issued := s.issued + 1 }
  | .respond tag => { s with rendered := some tag }

/-- Run of the fetch cycle on a sequence of events from the initial state. -/
def ctrlRun (evs : List FetchEvent) : CtrlState :=
  evs.foldl ctrlStep { issued := 0, rendered := none }

/-- First-occurrence deduplication, the behavior of
`Array.from(new Set(xs))` on a string array: keeps the first occurrence of
each element, in order. -/
def setDedupAux (seen : List String) : List String → List String
  | [] => []
  | x :: xs => if x ∈ seen then setDedupAux seen xs else x :: setDedupAux (x :: seen) xs

/-- `Array.from(new Set(xs))`. -/
def setDedup (xs : List String) : List String := setDedupAux [] xs

/-- loadDropdownOptions of the EmployeeForm variant with avatar support:
`Array.from(new Set(data.map(d => d.trim())))` for each of the three
option endpoints. -/
def formDropdownOptions (raw : List String) : List String :=
  setDedup (raw.map String.trim)

/-- loadFilterOptions of EmployeeFilters.tsx stores each fetched option
array unchanged: `setDepartments(deptData)` and likewise for titles and
locations. -/
def filterDropdownOptions (raw : List String) : List String := raw

/-- Salary rule of the zod employeeSchema in the avatar-capable form:
`z.coerce.number().min(20000).max(1000000)`. -/
def employeeSchemaSalary (salary : Int) : Bool :=
  decide (20000 ≤ salary) && decide (salary ≤ 1000000)

/-- Salary rule of the zod employeeSchema in EmployeeForm.tsx:
`z.number().min(0)`. -/
def legacyEmployeeSchemaSalary (salary : Int) : Bool :=
  decide (0 ≤ salary)

/-- The salary the submit handler sends: `Math.min(data.salary, 1000000)`. -/
def cleanSalary (salary : Int) : Int := min salary 1000000

/-- The validated form values of EmployeeFormData. `manager` is an optional
string (`manager?: string`), `customAvatar` a string-or-null-or-undefined. -/
structure EmployeeFormData where
  firstName : String
  lastName : String
  email : String
  phone : String
  department : String
  title : String
  location : String
  salary : Int
  manager : Option String
  customAvatar : JStr
deriving DecidableEq

/-- The cleaned manager value of onSubmit:
`data.manager?.trim() || null` (undefined or a whitespace-only string
becomes null, anything else the trimmed string). -/
def cleanManager (d : EmployeeFormData) : JStr :=
  match d.manager with
  | none => .null
  | some s => if s.trim = "" then .null else .str s.trim

/-- The React image-type state of the form: `'avatar' | 'customAvatar' | null`. -/
inductive ImageType where
  | avatar
  | customAvatar
  | null
deriving DecidableEq

/-- The partial update payload UpdateEmployeeDto; `none` means the key is
not assigned at all. An assigned manager can itself be undefined
(`cleanData.manager || undefined`), hence the JStr values. -/
structure UpdateEmployeeDto where
  firstName : Option String
  lastName : Option String
  email : Option String
  phone : Option String
  department : Option String
  title : Option String
  location : Option String
  salary : Option Int
  manager : Option JStr
  isActive : Option Bool
  customAvatar : Option JStr
deriving DecidableEq

/-- The update branch of onSubmit in the avatar-capable EmployeeForm:
starts from an empty payload and assigns exactly the fields whose cleaned
value differs (strictly, `!==`) from the original record; the customAvatar
key is assigned only when the imageChanged flag is set, with the uploaded
URL (`data.customAvatar || null`) or an explicit null depending on the
imageType state. -/
def onSubmitUpdateData (d : EmployeeFormData) (e : Employee)
    (imageChanged : Bool) (imageType : ImageType) : UpdateEmployeeDto :=
  { firstName := if d.firstName ≠ e.firstName then some d.firstName else none,
    lastName := if d.lastName ≠ e.lastName then some d.lastName else none,
    email := if d.email ≠ e.email then some d.email else none,
    phone := if d.phone ≠ e.phone then some d.phone else none,
    department := if d.department ≠ e.department then some d.department else none,
    title := if d.title ≠ e.title then some d.title else none,
    location := if d.location ≠ e.location then some d.location else none,
    salary := if cleanSalary d.salary ≠ e.salary then some (cleanSalary d.salary) else none,
    manager := if cleanManager d ≠ e.manager then some (jsOrUndefined (cleanManager d)) else none,
    isActive := none,
    customAvatar :=
      if imageChanged then
        match imageType with
        | .customAvatar => some (jsOrNull d.customAvatar)
        | .avatar => some .null
        | .null => none
      else none }

/-- General JavaScript values, for the handleApiError utility which takes
an `unknown` argument. Objects are association lists of string keys. -/
inductive JSVal where
  | nullV
  | undefV
  | boolV (b : Bool)
  | numV (n : Int)
  | strV (s : String)
  | objV (fields : List (String × JSVal))

/-- JavaScript truthiness of a general value. -/
def JSVal.truthy : JSVal → Bool
  | .nullV => false
  | .undefV => false
  | .boolV b => b
  | .numV n => n ≠ 0
  | .strV s => s ≠ ""
  | .objV _ => true

/-- Whether `typeof v === 'object'` (true for objects and for null). -/
def JSVal.typeofIsObject : JSVal → Bool
  | .nullV => true
  | .objV _ => true
  | _ => false

/-- Property read `v.k` on a value known not to be null or undefined:
yields the first binding of the key, undefined when absent or when the
value is a primitive. -/
def JSVal.getProp : JSVal → String → JSVal
  | .objV fields, k => ((fields.find? (fun p => p.1 == k)).map Prod.snd).getD .undefV
  | _, _ => .undefV

/-- Optional chaining `v?.k`: undefined when v is null or undefined,
otherwise a plain property read. -/
def JSVal.optChain (v : JSVal) (k : String) : JSVal :=
  match v with
  | .nullV => .undefV
  | .undefV => .undefV
  | w => w.getProp k

/-- The `k in v` operator, defined on objects. -/
def JSVal.hasKey : JSVal → String → Bool
  | .objV fields, k => fields.any (fun p => p.1 == k)
  | _, _ => false

/-- The nested read `error.response?.data?.message` performed by
handleApiError once error is known to be an object. -/
def responseDataMessage (error : JSVal) : JSVal :=
  ((error.getProp "response").optChain "data").optChain "message"

/-- handleApiError of the shared utils module:
returns `error.response.data.message` when error is a truthy object with a
response key and that nested read is truthy; otherwise `error.message`
whenever error is a truthy object with a message key (no truthiness check
on the value); otherwise the fixed fallback string. -/
def handleApiError (error : JSVal) : JSVal :=
  if error.truthy && error.typeofIsObject && error.hasKey "response"
      && (responseDataMessage error).truthy then
    responseDataMessage error
  else if error.truthy && error.typeofIsObject && error.hasKey "message" then
    error.getProp "message"
  else
    .strV "An unexpected error occurred"

/-- The return-type contract the spec asserts for handleApiError: the
result is a nonempty string. -/
def isNonEmptyStr (v : JSVal) : Prop :=
  ∃ s, v = JSVal.strV s ∧ s ≠ ""

/-- A concrete list-controller state with a pending delete, used to
instantiate the delete-flow theorems. -/
def sampleListState : ListState :=
  { employees := { employees := [], total := 0, page := 1, limit := 10, totalPages := 0 },
    loading := false, error := none, deleteId := some "e1",
    filters := { department := none, title := none, location := none,
                 search := none, page := some 1, limit := some 10 } }

theorem ite_some_ne_none {α : Type} (c : Prop) [Decidable c] (x : α) :
    (if c then some x else none) ≠ none ↔ c := by
  split_ifs with h <;> simp [h]

theorem mem_setDedupAux (seen l : List String) (x : String) :
    x ∈ setDedupAux seen l ↔ x ∈ l ∧ x ∉ seen := by
  induction l generalizing seen with
  | nil => simp [setDedupAux]
  | cons y ys ih =>
      by_cases hy : y ∈ seen
      · rw [setDedupAux, if_pos hy, ih]
        constructor
        · rintro ⟨h1, h2⟩
          exact ⟨List.mem_cons_of_mem _ h1, h2⟩
        · rintro ⟨h1, h2⟩
          rcases List.mem_cons.mp h1 with h1 | h1
          · exact absurd (h1 ▸ hy) h2
          · exact ⟨h1, h2⟩
      · rw [setDedupAux, if_neg hy]
        constructor
        · intro hmem
          rcases List.mem_cons.mp hmem with h | h
          · exact ⟨h ▸ List.mem_cons_self _ _, h ▸ hy⟩
          · rcases (ih (y :: seen)).mp h with ⟨h1, h2⟩
            refine ⟨List.mem_cons_of_mem _ h1, fun hx => h2 (List.mem_cons_of_mem _ hx)⟩
        · rintro ⟨h1, h2⟩
          rcases List.mem_cons.mp h1 with h1 | h1
          · exact h1 ▸ List.mem_cons_self _ _
          · by_cases hxy : x = y
            · exact hxy ▸ List.mem_cons_self _ _
            · refine List.mem_cons_of_mem _ ((ih (y :: seen)).mpr ⟨h1, ?_⟩)
              intro hx
              rcases List.mem_cons.mp hx with hx | hx
              · exact hxy hx
              · exact h2 hx

theorem nodup_setDedupAux (seen l : List String) : (setDedupAux seen l).Nodup := by
  induction l generalizing seen with
  | nil => simp [setDedupAux]
  | cons y ys ih =>
      by_cases hy : y ∈ seen
      · rw [setDedupAux, if_pos hy]; exact ih seen
      · rw [setDedupAux, if_neg hy]
        refine List.nodup_cons.mpr ⟨?_, ih (y :: seen)⟩
        intro hmem
        exact ((mem_setDedupAux _ _ _).mp hmem).2 (List.mem_cons_self _ _)

/-- C1: the fetch cycle applies responses unconditionally (the
`setEmployees(data)` of loadEmployees carries no tag or sequence check), so
with two requests issued (tags 1 and 2) and the responses arriving out of
order, the request left rendered is the stale tag 1, not the most recently
issued tag 2: the stale response is applied, not discarded, contradicting
the discard-stale-response rule the spec requires. -/
theorem ctrlRun_applies_stale_response :
    ctrlRun [.issue, .issue, .respond 2, .respond 1] =
      { issued := 2, rendered := some 1 } ∧
    (ctrlRun [.issue, .issue, .respond 2, .respond 1]).rendered ≠
      some (ctrlRun [.issue, .issue, .respond 2, .respond 1]).issued :=
  ⟨rfl, by decide⟩

/-- C2: every filter update the filter UI issues for a non-page key
(department, title, location, search — including chip clears and the
clear-all reset) yields a state with page = 1, while handlePageChange
assigns exactly the page field, to the requested value, leaving every other
filter field unchanged. -/
theorem filterChange_resets_page (f : EmployeeFilters) (k : FilterKey) (v : String) (n : Nat) :
    (handleFilterChange f k v).page = some 1 ∧
    (handleSearchChange f v).page = some 1 ∧
    clearFilters.page = some 1 ∧
    handlePageChange f n =
      { department := f.department, title := f.title, location := f.location,
        search := f.search, page := some n, limit := f.limit } := by
  refine ⟨?_, rfl, rfl, rfl⟩
  cases k <;> rfl

/-- C3: a failing list fetch sets the error message and clears the loading
flag while leaving the last successfully fetched paginated result, the
pending-delete id and the filters untouched (stale-read policy). -/
theorem loadEmployees_failure_preserves_data (s : ListState) :
    (loadEmployees s (.error ())).employees = s.employees ∧
    (loadEmployees s (.error ())).error =
      some "Failed to load employees. Please try again." ∧
    (loadEmployees s (.error ())).loading = false ∧
    (loadEmployees s (.error ())).deleteId = s.deleteId ∧
    (loadEmployees s (.error ())).filters = s.filters :=
  ⟨rfl, rfl, rfl, rfl, rfl⟩

/-- C4: the update payload assigns a value-compared field exactly when its
cleaned form value differs (strict JavaScript comparison) from the original
record, never assigns isActive, and assigns the customAvatar key only under
the imageChanged flag: absent when the image was not touched, an explicit
null after remove-image, and the uploaded URL (or null) after an upload —
independent of whether the avatar value itself differs. -/
theorem updateData_exactly_changed_fields (d : EmployeeFormData) (e : Employee)
    (ic : Bool) (it : ImageType) :
    ((onSubmitUpdateData d e ic it).firstName ≠ none ↔ d.firstName ≠ e.firstName) ∧
    ((onSubmitUpdateData d e ic it).lastName ≠ none ↔ d.lastName ≠ e.lastName) ∧
    ((onSubmitUpdateData d e ic it).email ≠ none ↔ d.email ≠ e.email) ∧
    ((onSubmitUpdateData d e ic it).phone ≠ none ↔ d.phone ≠ e.phone) ∧
    ((onSubmitUpdateData d e ic it).department ≠ none ↔ d.department ≠ e.department) ∧
    ((onSubmitUpdateData d e ic it).title ≠ none ↔ d.title ≠ e.title) ∧
    ((onSubmitUpdateData d e ic it).location ≠ none ↔ d.location ≠ e.location) ∧
    ((onSubmitUpdateData d e ic it).salary ≠ none ↔ cleanSalary d.salary ≠ e.salary) ∧
    ((onSubmitUpdateData d e ic it).manager ≠ none ↔ cleanManager d ≠ e.manager) ∧
    ((onSubmitUpdateData d e ic it).isActive = none) ∧
    ((onSubmitUpdateData d e false it).customAvatar = none) ∧
    ((onSubmitUpdateData d e true ImageType.avatar).customAvatar = some JStr.null) ∧
    ((onSubmitUpdateData d e true ImageType.customAvatar).customAvatar
       = some (jsOrNull d.customAvatar)) := by
  refine ⟨?_, ?_, ?_, ?_, ?_, ?_, ?_, ?_, ?_, rfl, rfl, rfl, rfl⟩ <;>
    exact ite_some_ne_none _ _

/-- C5: delete is two-phase. Requesting a delete only records the pending
id and issues no network call; cancelling clears the pending id, issues no
network call and changes no other state; confirming with no pending id does
nothing; and the DELETE request is issued (only) by the confirmation step
on the pending id. -/
theorem delete_two_phase (s : ListState) (id : String) (r : Except Unit Unit) :
    handleDeleteEmployee s id = ({ s with deleteId := some id }, []) ∧
    cancelDelete s = ({ s with deleteId := none }, []) ∧
    (s.deleteId = none → confirmDeleteEmployee s r = (s, [])) ∧
    (s.deleteId = some id → ApiCall.deleteEmployee id ∈ (confirmDeleteEmployee s r).2) := by
  refine ⟨rfl, rfl, ?_, ?_⟩
  · intro h; simp [confirmDeleteEmployee, h]
  · intro h; cases r <;> simp [confirmDeleteEmployee, h]

theorem delete_two_phase_witness :
    sampleListState.deleteId = some "e1" ∧
    ApiCall.deleteEmployee "e1" ∈ (confirmDeleteEmployee sampleListState (.ok ())).2 :=
  ⟨rfl, (delete_two_phase sampleListState "e1" (.ok ())).2.2.2 rfl⟩

/-- C6: the query-parameter list of employeeApi.getAll contains a key-value
pair exactly when the corresponding filter entry is defined (not undefined)
with that stringified value and the value is not the empty string; and the
query string is the ampersand-join of those pairs serialized as key=value. -/
theorem mem_getAllParams_iff (f : EmployeeFilters) (k v : String) :
    ((k, v) ∈ getAllParams f ↔ (k, some v) ∈ filterEntries f ∧ v ≠ "") ∧
    getAllQueryString f =
      String.intercalate "&" ((getAllParams f).map fun kv => kv.1 ++ "=" ++ kv.2) := by
  refine ⟨?_, rfl⟩
  simp only [getAllParams, List.mem_filterMap]
  constructor
  · rintro ⟨⟨k', ov⟩, hmem, hg⟩
    cases ov with
    | none => simp at hg
    | some w =>
        by_cases hw : w = ""
        · simp [hw] at hg
        · simp only [ne_eq, hw, not_false_eq_true, if_true, Option.some.injEq,
            Prod.mk.injEq] at hg
          obtain ⟨hk, hv⟩ := hg
          subst hk
          subst hv
          exact ⟨hmem, hw⟩
  · rintro ⟨hmem, hv⟩
    exact ⟨(k, some v), hmem, by simp [hv]⟩

/-- C7 as stated fails on the filter UI: loadFilterOptions of
EmployeeFilters.tsx stores the fetched option arrays unchanged, so a
duplicated endpoint string appears twice in the filter dropdown options
rather than exactly once. -/
theorem filterOptions_keep_duplicates :
    (filterDropdownOptions ["A", "A"]).count "A" = 2 ∧
    ¬ (filterDropdownOptions ["A", "A"]).Nodup := by decide

/-- C7 amended: the form UI dropdown options contain each distinct trimmed
fetched string exactly once (no duplicates, membership is exactly the
trimmed input strings), while the filter UI stores the fetched arrays
unchanged. -/
theorem dropdownOptions_amended (raw : List String) :
    (formDropdownOptions raw).Nodup ∧
    (∀ x, x ∈ formDropdownOptions raw ↔ x ∈ raw.map String.trim) ∧
    filterDropdownOptions raw = raw := by
  refine ⟨nodup_setDedupAux [] _, ?_, rfl⟩
  intro x
  rw [formDropdownOptions, setDedup, mem_setDedupAux]
  simp

/-- C8 as stated fails on the legacy schema of EmployeeForm.tsx, whose
salary rule is only z.number().min(0): a salary of 5000 passes that
validation, is not raised by the cap, and the submitted value violates the
20000 lower bound. -/
theorem legacySchema_admits_low_salary :
    legacyEmployeeSchemaSalary 5000 = true ∧
    cleanSalary 5000 = 5000 ∧
    ¬ (20000 ≤ cleanSalary 5000) := by decide

/-- C8 amended: under the avatar-capable form schema
(z.coerce.number().min(20000).max(1000000)) the submitted, capped salary
lies within [20000, 1000000]; the legacy schema enforces only the lower
bound 0. -/
theorem salary_bounds_capped (s : Int) (h : employeeSchemaSalary s = true) :
    20000 ≤ cleanSalary s ∧ cleanSalary s ≤ 1000000 := by
  simp only [employeeSchemaSalary, Bool.and_eq_true, decide_eq_true_eq] at h
  exact ⟨le_min h.1 (by norm_num), min_le_right _ _⟩

theorem salary_bounds_capped_witness :
    employeeSchemaSalary 50000 = true ∧
    (20000 ≤ cleanSalary 50000 ∧ cleanSalary 50000 ≤ 1000000) :=
  ⟨by decide, salary_bounds_capped 50000 (by decide)⟩

/-- C9: a failing confirmed delete resets the pending-delete id to none and
surfaces the error message, issues the DELETE request exactly once (no
retry, no refresh), and modifies no other list state: the displayed result,
loading flag and filters are those of the prior state. -/
theorem confirmDelete_failure_resets (s : ListState) (id : String)
    (h : s.deleteId = some id) :
    confirmDeleteEmployee s (.error ()) =
      ({ s with deleteId := none,
                error := some "Failed to delete employee. Please try again." },
       [ApiCall.deleteEmployee id]) := by
  simp [confirmDeleteEmployee, h]

theorem confirmDelete_failure_resets_witness :
    confirmDeleteEmployee sampleListState (.error ()) =
      ({ sampleListState with
          deleteId := none,
          error := some "Failed to delete employee. Please try again." },
       [ApiCall.deleteEmployee "e1"]) :=
  confirmDelete_failure_resets sampleListState "e1" rfl

/-- C10 as stated fails: an error object whose message field is the empty
string makes handleApiError return the empty string, not a nonempty one. -/
theorem handleApiError_empty_message :
    handleApiError (JSVal.objV [("message", JSVal.strV "")]) = JSVal.strV "" ∧
    ¬ isNonEmptyStr (handleApiError (JSVal.objV [("message", JSVal.strV "")])) := by
  refine ⟨rfl, ?_⟩
  rintro ⟨s, hs, hne⟩
  rw [show handleApiError (JSVal.objV [("message", JSVal.strV "")]) = JSVal.strV ""
      from rfl] at hs
  injection hs with h
  exact hne h.symm

/-- C10 amended: handleApiError is total; it returns the fixed nonempty
fallback on every non-object or falsy input, returns the nested
response.data.message when the input is a truthy object with a response key
and that nested read is truthy, otherwise returns the message property
value (possibly the empty string) whenever a message key is present, and
otherwise the fallback. -/
theorem handleApiError_characterization (e : JSVal) :
    (e.truthy = false ∨ e.typeofIsObject = false →
        handleApiError e = .strV "An unexpected error occurred") ∧
    (e.truthy = true → e.typeofIsObject = true → e.hasKey "response" = true →
        (responseDataMessage e).truthy = true →
        handleApiError e = responseDataMessage e) ∧
    (e.truthy = true → e.typeofIsObject = true →
        (e.hasKey "response" = false ∨ (responseDataMessage e).truthy = false) →
        e.hasKey "message" = true →
        handleApiError e = e.getProp "message") ∧
    (e.truthy = true → e.typeofIsObject = true →
        (e.hasKey "response" = false ∨ (responseDataMessage e).truthy = false) →
        e.hasKey "message" = false →
        handleApiError e = .strV "An unexpected error occurred") ∧
    ("An unexpected error occurred" ≠ "") := by
  refine ⟨?_, ?_, ?_, ?_, by decide⟩
  · rintro (h | h) <;> simp [handleApiError, h]
  · intro h1 h2 h3 h4
    simp [handleApiError, h1, h2, h3, h4]
  · intro h1 h2 h3 h4
    rcases h3 with h3 | h3 <;> simp [handleApiError, h1, h2, h3, h4]
  · intro h1 h2 h3 h4
    rcases h3 with h3 | h3 <;> simp [handleApiError, h1, h2, h3, h4]

theorem handleApiError_characterization_witness :
    handleApiError JSVal.nullV = .strV "An unexpected error occurred" :=
  (handleApiError_characterization JSVal.nullV).1 (Or.inl rfl)

end EmployeeDirectory
